import Mathlib

/-!
Verification of the password-reset verification-code workflow of the
Elite-Glam backend (`elite-glam-backend/src/firebase/firebase.service.ts`,
`FirebaseService`: the `resetCodes` map and the methods
`sendPasswordResetCode`, `verifyPasswordResetCode`, `resetPassword`).

Shallow embedding choices:
* The in-memory `Map<string, { code: string; expires: Date }>` becomes a
  function `String → Option ResetEntry`; `Map.set` overwrites, `Map.delete`
  removes, `Map.get` looks up.
* Time (`Date.now()`, `Date` values) is milliseconds since epoch as `ℕ`;
  the JS comparison `new Date() > storedData.expires` is `now > expires`.
* `Math.random()` is a parameter `rand : ℚ` with `0 ≤ rand < 1`;
  `Math.floor(100000 + Math.random() * 900000).toString()` becomes
  `toString (genCode rand)`.
* The external collaborators reachable from `this` (Firebase Auth user
  lookup `getUserByEmail` and `auth.updateUser`) are a `Delegate` record
  passed to every method; the email service outcome is a `deliveryOk` flag.
* A method that `throw`s is modelled as returning `Except.error`; the map
  mutations that happened before the throw are kept in the returned store,
  exactly as in the JS code where `this.resetCodes` is mutated in place.
-/

set_option linter.unusedVariables false

/-- The value type of the `resetCodes` map: `{ code: string; expires: Date }`. -/
structure ResetEntry where
  code : String
  expires : ℕ
deriving DecidableEq, Repr

/-- The `resetCodes` map: recipient email to stored entry. -/
def Store : Type := String → Option ResetEntry

/-- `Map.set`: overwrite the entry for key `k`. -/
def Store.set (st : Store) (k : String) (v : ResetEntry) : Store :=
  fun k2 => if k2 = k then some v else st k2

/-- `Map.delete`: remove the entry for key `k`. -/
def Store.del (st : Store) (k : String) : Store :=
  fun k2 => if k2 = k then none else st k2

/-- The empty map (initial value of `resetCodes`). -/
def Store.empty : Store := fun _ => none

/-- The external identity platform visible from the service (`this`):
account lookup by email and whether a password update for a given uid and
new password succeeds. -/
structure Delegate where
  getUserByEmail : String → Option String
  updatePasswordOk : String → String → Bool

/-- `Math.floor(100000 + Math.random() * 900000)` with the random draw
`rand` made explicit. -/
def genCode (rand : ℚ) : ℕ :=
  (⌊(100000 : ℚ) + rand * 900000⌋).toNat

/-- Errors thrown by `sendPasswordResetCode`: the catch block rethrows any
failure (in practice, email delivery) as `Failed to send password reset code`. -/
inductive SendErr
  | deliveryFailed
deriving DecidableEq, Repr

/-- Errors thrown by `resetPassword`: `Invalid or expired verification code`,
`User not found`, or the rethrown Firebase Auth update failure. -/
inductive ResetErr
  | invalidCode
  | userNotFound
  | updateFailed
deriving DecidableEq, Repr

/-- `sendPasswordResetCode(email)`: generate a 6-digit code, store it with a
10-minute expiry, then attempt email delivery.  The map is mutated before
delivery is attempted, so the entry is stored even when delivery throws. -/
def sendPasswordResetCode (d : Delegate) (st : Store) (email : String)
    (rand : ℚ) (now : ℕ) (deliveryOk : Bool) : Store × Except SendErr Unit :=
  let code := toString (genCode rand)
  let expires := now + 10 * 60 * 1000
  let st2 := Store.set st email ⟨code, expires⟩
  if deliveryOk then (st2, Except.ok ()) else (st2, Except.error SendErr.deliveryFailed)

/-- `verifyPasswordResetCode(email, code)`: look up the entry; absent ⇒ false;
expired (`new Date() > expires`) ⇒ delete and false; otherwise compare the
stored code to the supplied one with `===`.  Returns the result together with
the (possibly mutated) map. -/
def verifyPasswordResetCode (d : Delegate) (st : Store) (email code : String)
    (now : ℕ) : Bool × Store :=
  match st email with
  | none => (false, st)
  | some storedData =>
    if now > storedData.expires then (false, Store.del st email)
    else (storedData.code == code, st)

/-- `resetPassword(email, code, newPassword)`: verify the code (sharing the
mutated map), look the user up, update the password via Firebase Auth, and
only then delete the reset entry.  Any failure is thrown before the delete. -/
def resetPassword (d : Delegate) (st : Store) (email code newPassword : String)
    (now : ℕ) : Store × Except ResetErr Unit :=
  let v := verifyPasswordResetCode d st email code now
  let st1 := v.2
  if v.1 then
    match d.getUserByEmail email with
    | none => (st1, Except.error ResetErr.userNotFound)
    | some uid =>
      if d.updatePasswordOk uid newPassword then (Store.del st1 email, Except.ok ())
      else (st1, Except.error ResetErr.updateFailed)
  else (st1, Except.error ResetErr.invalidCode)

/-! Basic lemmas about the store and the three operations, shared by the
claim theorems below. -/

theorem Store.set_same (st : Store) (k : String) (v : ResetEntry) :
    Store.set st k v k = some v := by
  simp [Store.set]

theorem Store.set_other (st : Store) (k k2 : String) (v : ResetEntry)
    (h : k2 ≠ k) : Store.set st k v k2 = st k2 := by
  simp [Store.set, h]

theorem Store.del_same (st : Store) (k : String) : Store.del st k k = none := by
  simp [Store.del]

theorem Store.del_other (st : Store) (k k2 : String) (h : k2 ≠ k) :
    Store.del st k k2 = st k2 := by
  simp [Store.del, h]

theorem verify_none (d : Delegate) (st : Store) (email code : String) (now : ℕ)
    (h : st email = none) :
    verifyPasswordResetCode d st email code now = (false, st) := by
  simp [verifyPasswordResetCode, h]

theorem verify_live (d : Delegate) (st : Store) (email code : String) (now : ℕ)
    (e : ResetEntry) (h : st email = some e) (hexp : ¬ now > e.expires) :
    verifyPasswordResetCode d st email code now = (e.code == code, st) := by
  simp [verifyPasswordResetCode, h, hexp]

theorem verify_hit (d : Delegate) (st : Store) (email code : String) (now : ℕ)
    (e : ResetEntry) (h : st email = some e) (hexp : ¬ now > e.expires)
    (hc : e.code = code) :
    verifyPasswordResetCode d st email code now = (true, st) := by
  rw [verify_live d st email code now e h hexp, hc]
  simp

theorem verify_expired (d : Delegate) (st : Store) (email code : String) (now : ℕ)
    (e : ResetEntry) (h : st email = some e) (hexp : now > e.expires) :
    verifyPasswordResetCode d st email code now = (false, Store.del st email) := by
  simp [verifyPasswordResetCode, h, hexp]

theorem verify_frame (d : Delegate) (st : Store) (email code : String) (now : ℕ)
    (k : String) (hk : k ≠ email) :
    (verifyPasswordResetCode d st email code now).2 k = st k := by
  unfold verifyPasswordResetCode
  cases h : st email with
  | none => rfl
  | some e =>
    by_cases hexp : now > e.expires
    · simp [hexp, Store.del_other st email k hk]
    · simp [hexp]

theorem resetPassword_store_eq (d : Delegate) (st : Store)
    (email code newPassword : String) (now : ℕ) :
    (resetPassword d st email code newPassword now).1
      = (verifyPasswordResetCode d st email code now).2 ∨
    (resetPassword d st email code newPassword now).1
      = Store.del (verifyPasswordResetCode d st email code now).2 email := by
  unfold resetPassword
  cases hb : (verifyPasswordResetCode d st email code now).1
  · left; simp [hb]
  · cases hu : d.getUserByEmail email with
    | none => left; simp [hb, hu]
    | some uid =>
      by_cases hup : d.updatePasswordOk uid newPassword = true
      · right; simp [hb, hu, hup]
      · left; simp [hb, hu, hup]

/-! Concrete delegates used by closed witnesses and counterexamples. -/

/-- A delegate with no accounts at all. -/
def noAccounts : Delegate := ⟨fun _ => none, fun _ _ => false⟩

/-- A delegate where every email maps to account `uid-1` and every password
update succeeds. -/
def happyDelegate : Delegate := ⟨fun _ => some "uid-1", fun _ _ => true⟩

/-- A delegate where every email maps to account `uid-1` but every password
update is rejected. -/
def rejectingDelegate : Delegate := ⟨fun _ => some "uid-1", fun _ _ => false⟩

/-! Claim theorems. -/

/-- C6: for every outcome of the random generator (`0 ≤ rand < 1`), the code
generated and stored by `sendPasswordResetCode` is the decimal string of a
value in 100000–999999 inclusive, hence exactly 6 digits with no leading
zero possible. -/
theorem issue_code_is_six_digit (d : Delegate) (st : Store) (email : String)
    (rand : ℚ) (now : ℕ) (deliveryOk : Bool) (h0 : 0 ≤ rand) (h1 : rand < 1) :
    (sendPasswordResetCode d st email rand now deliveryOk).1 email
        = some ⟨toString (genCode rand), now + 10 * 60 * 1000⟩ ∧
      100000 ≤ genCode rand ∧ genCode rand ≤ 999999 ∧
      (Nat.digits 10 (genCode rand)).length = 6 := by
  have hlo : 100000 ≤ genCode rand := by
    unfold genCode
    have h : ((100000 : ℤ) : ℚ) ≤ 100000 + rand * 900000 := by push_cast; nlinarith
    have := Int.le_floor.mpr h
    omega
  have hhi : genCode rand ≤ 999999 := by
    unfold genCode
    have h : (100000 : ℚ) + rand * 900000 < ((1000000 : ℤ) : ℚ) := by push_cast; nlinarith
    have := Int.floor_lt.mpr h
    omega
  refine ⟨?_, hlo, hhi, ?_⟩
  · simp [sendPasswordResetCode, Store.set_same]
    cases deliveryOk <;> simp [Store.set_same]
  · rw [Nat.digits_len 10 (genCode rand) (by norm_num) (by omega)]
    have : Nat.log 10 (genCode rand) = 5 :=
      Nat.log_eq_of_pow_le_of_lt_pow (by norm_num; omega) (by norm_num; omega)
    omega

theorem issue_code_is_six_digit_witness :
    (0 : ℚ) ≤ 1/2 ∧ (1 : ℚ)/2 < 1 ∧
    ((sendPasswordResetCode noAccounts Store.empty "a@x.com" (1/2) 0 true).1 "a@x.com"
        = some ⟨toString (genCode (1/2)), 0 + 10 * 60 * 1000⟩ ∧
      100000 ≤ genCode (1/2) ∧ genCode (1/2) ≤ 999999 ∧
      (Nat.digits 10 (genCode (1/2))).length = 6) :=
  ⟨by norm_num, by norm_num,
    issue_code_is_six_digit noAccounts Store.empty "a@x.com" (1/2) 0 true
      (by norm_num) (by norm_num)⟩

/-- C9: `sendPasswordResetCode` and `verifyPasswordResetCode` never consult
the identity platform: two runs that differ only in the delegate (in
particular, in whether the recipient has a real account) return the same
result and the same store, so these operations cannot reveal account
existence. -/
theorem issue_validate_account_independent (d1 d2 : Delegate) (st : Store)
    (email code : String) (rand : ℚ) (now : ℕ) (deliveryOk : Bool) :
    sendPasswordResetCode d1 st email rand now deliveryOk
        = sendPasswordResetCode d2 st email rand now deliveryOk ∧
      verifyPasswordResetCode d1 st email code now
        = verifyPasswordResetCode d2 st email code now :=
  ⟨rfl, rfl⟩

/-- C7 counterexample: `sendPasswordResetCode` called with the empty
recipient string does not fail and does store an entry — with successful
delivery it returns ok and the store maps `""` to a live entry, against the
claim that it fails with `InvalidRecipient` and stores nothing. -/
theorem issue_empty_recipient_no_error :
    (sendPasswordResetCode noAccounts Store.empty "" (1/2) 0 true).2 = Except.ok () ∧
      (sendPasswordResetCode noAccounts Store.empty "" (1/2) 0 true).1 ""
        = some ⟨"550000", 600000⟩ := by
  have hg : toString (genCode (1/2)) = "550000" := by
    have h : genCode (1/2) = 550000 := by unfold genCode; norm_num; rfl
    rw [h]; rfl
  refine ⟨rfl, ?_⟩
  show Store.set Store.empty "" ⟨toString (genCode (1/2)), 0 + 10 * 60 * 1000⟩ ""
    = some ⟨"550000", 600000⟩
  rw [Store.set_same, hg]

/-- C7 amended: `sendPasswordResetCode` performs no validation of the
recipient: every identifier, the empty string included, is treated alike —
the entry is always stored (before delivery is attempted) and the call
succeeds exactly when delivery succeeds; no `InvalidRecipient` error exists
in the code. -/
theorem issue_no_recipient_validation (d : Delegate) (st : Store)
    (email : String) (rand : ℚ) (now : ℕ) (deliveryOk : Bool) :
    (sendPasswordResetCode d st email rand now deliveryOk).1 email
        = some ⟨toString (genCode rand), now + 10 * 60 * 1000⟩ ∧
      ((sendPasswordResetCode d st email rand now deliveryOk).2 = Except.ok ()
        ↔ deliveryOk = true) := by
  cases deliveryOk <;> simp [sendPasswordResetCode, Store.set_same]

/-- C10: per-recipient isolation — each of the three operations, run for
recipient `email`, leaves the stored entry of every other key `k` exactly
as it was. -/
theorem ops_frame_other_recipients (d : Delegate) (st : Store)
    (email code newPassword : String) (rand : ℚ) (now : ℕ) (deliveryOk : Bool)
    (k : String) (hk : k ≠ email) :
    (sendPasswordResetCode d st email rand now deliveryOk).1 k = st k ∧
      (verifyPasswordResetCode d st email code now).2 k = st k ∧
      (resetPassword d st email code newPassword now).1 k = st k := by
  have hvf := verify_frame d st email code now k hk
  refine ⟨?_, hvf, ?_⟩
  · cases deliveryOk <;> simp [sendPasswordResetCode, Store.set_other _ _ _ _ hk]
  · rcases resetPassword_store_eq d st email code newPassword now with h | h
    · rw [h]; exact hvf
    · rw [h, Store.del_other _ _ _ hk]; exact hvf

theorem ops_frame_other_recipients_witness :
    "b@x.com" ≠ "a@x.com" ∧
    ((sendPasswordResetCode happyDelegate Store.empty "a@x.com" (1/2) 0 true).1 "b@x.com"
        = Store.empty "b@x.com" ∧
      (verifyPasswordResetCode happyDelegate Store.empty "a@x.com" "550000" 0).2 "b@x.com"
        = Store.empty "b@x.com" ∧
      (resetPassword happyDelegate Store.empty "a@x.com" "550000" "NewPass1!" 0).1 "b@x.com"
        = Store.empty "b@x.com") :=
  ⟨by decide,
    ops_frame_other_recipients happyDelegate Store.empty "a@x.com" "550000"
      "NewPass1!" (1/2) 0 true "b@x.com" (by decide)⟩

/-- C1: when `resetPassword` succeeds for a live, matching code (account
found, password update accepted), the reset entry is deleted, so every
later `verifyPasswordResetCode` for that recipient with the same code
returns false and every later `resetPassword` with the same code fails
with the invalid-code error. -/
theorem resetPassword_consumes_entry (d : Delegate) (st : Store)
    (email code newPassword uid : String) (now : ℕ) (e : ResetEntry)
    (h : st email = some e) (hexp : ¬ now > e.expires) (hc : e.code = code)
    (hu : d.getUserByEmail email = some uid)
    (hup : d.updatePasswordOk uid newPassword = true) :
    (resetPassword d st email code newPassword now).2 = Except.ok () ∧
      (resetPassword d st email code newPassword now).1 email = none ∧
      (∀ (d2 : Delegate) (now2 : ℕ),
        (verifyPasswordResetCode d2 (resetPassword d st email code newPassword now).1
          email code now2).1 = false) ∧
      (∀ (d2 : Delegate) (now2 : ℕ) (cred : String),
        (resetPassword d2 (resetPassword d st email code newPassword now).1
          email code cred now2).2 = Except.error ResetErr.invalidCode) := by
  have hv := verify_hit d st email code now e h hexp hc
  have hR : resetPassword d st email code newPassword now
      = (Store.del st email, Except.ok ()) := by
    simp [resetPassword, hv, hu, hup]
  have h1 : (resetPassword d st email code newPassword now).1 = Store.del st email := by
    rw [hR]
  have h2 : (resetPassword d st email code newPassword now).2 = Except.ok () := by
    rw [hR]
  refine ⟨h2, ?_, ?_, ?_⟩
  · rw [h1]; exact Store.del_same st email
  · intro d2 now2
    rw [h1, verify_none d2 _ email code now2 (Store.del_same st email)]
  · intro d2 now2 cred
    rw [h1]
    simp [resetPassword, verify_none d2 _ email code now2 (Store.del_same st email)]

theorem resetPassword_consumes_entry_witness :
    (Store.set Store.empty "a@x.com" ⟨"483920", 600000⟩) "a@x.com"
        = some ⟨"483920", 600000⟩ ∧
    ((resetPassword happyDelegate (Store.set Store.empty "a@x.com" ⟨"483920", 600000⟩)
          "a@x.com" "483920" "NewPass1!" 1000).2 = Except.ok () ∧
      (resetPassword happyDelegate (Store.set Store.empty "a@x.com" ⟨"483920", 600000⟩)
          "a@x.com" "483920" "NewPass1!" 1000).1 "a@x.com" = none ∧
      (∀ (d2 : Delegate) (now2 : ℕ),
        (verifyPasswordResetCode d2
          (resetPassword happyDelegate (Store.set Store.empty "a@x.com" ⟨"483920", 600000⟩)
            "a@x.com" "483920" "NewPass1!" 1000).1 "a@x.com" "483920" now2).1 = false) ∧
      (∀ (d2 : Delegate) (now2 : ℕ) (cred : String),
        (resetPassword d2
          (resetPassword happyDelegate (Store.set Store.empty "a@x.com" ⟨"483920", 600000⟩)
            "a@x.com" "483920" "NewPass1!" 1000).1 "a@x.com" "483920" cred now2).2
          = Except.error ResetErr.invalidCode)) :=
  ⟨Store.set_same _ _ _,
    resetPassword_consumes_entry happyDelegate _ "a@x.com" "483920" "NewPass1!"
      "uid-1" 1000 ⟨"483920", 600000⟩ (Store.set_same _ _ _) (by decide) rfl rfl rfl⟩

/-- C2 counterexample: issuing at time 0 stores expiry 600000 ms (= T + 10
min), and validating with the correct code exactly at time 600000 — at the
expiry instant — returns true, against the claim that validation at or
after T + 10 min returns false. -/
theorem validate_true_at_exact_expiry :
    (verifyPasswordResetCode noAccounts
      (sendPasswordResetCode noAccounts Store.empty "a@x.com" (1/2) 0 true).1
      "a@x.com" (toString (genCode (1/2))) 600000).1 = true := by
  have hst : (sendPasswordResetCode noAccounts Store.empty "a@x.com" (1/2) 0 true).1 "a@x.com"
      = some ⟨toString (genCode (1/2)), 600000⟩ := by
    show Store.set Store.empty "a@x.com" ⟨toString (genCode (1/2)), 0 + 10 * 60 * 1000⟩ "a@x.com"
      = some ⟨toString (genCode (1/2)), 600000⟩
    rw [Store.set_same]
  rw [verify_hit noAccounts _ "a@x.com" _ 600000 _ hst
    (by show ¬ (600000 : ℕ) > 600000; omega) rfl]

/-- C2 amended: the stored expiry equals the issuance time plus 10 minutes,
and validation with the correct code returns true at every time up to and
including the expiry instant (in particular at T + 10 min − 1 s and at
exactly T + 10 min) and false at every time strictly after it (in
particular at T + 10 min + 1 s): the code's expiry test is the strict
comparison `now > expires`, so the boundary instant itself is still valid. -/
theorem validate_expiry_boundary (d d2 : Delegate) (st : Store) (email : String)
    (rand : ℚ) (now : ℕ) (deliveryOk : Bool) :
    (sendPasswordResetCode d st email rand now deliveryOk).1 email
        = some ⟨toString (genCode rand), now + 10 * 60 * 1000⟩ ∧
      (∀ now2, now2 ≤ now + 10 * 60 * 1000 →
        (verifyPasswordResetCode d2 (sendPasswordResetCode d st email rand now deliveryOk).1
          email (toString (genCode rand)) now2).1 = true) ∧
      (∀ now2, now + 10 * 60 * 1000 < now2 →
        (verifyPasswordResetCode d2 (sendPasswordResetCode d st email rand now deliveryOk).1
          email (toString (genCode rand)) now2).1 = false) := by
  have hst : (sendPasswordResetCode d st email rand now deliveryOk).1 email
      = some ⟨toString (genCode rand), now + 10 * 60 * 1000⟩ := by
    cases deliveryOk <;> exact Store.set_same _ _ _
  refine ⟨hst, ?_, ?_⟩
  · intro now2 h2
    rw [verify_hit d2 _ email _ now2 _ hst
      (by show ¬ now2 > now + 10 * 60 * 1000; omega) rfl]
  · intro now2 h2
    rw [verify_expired d2 _ email _ now2 _ hst
      (by show now2 > now + 10 * 60 * 1000; omega)]

theorem validate_expiry_boundary_witness :
    (599000 : ℕ) ≤ 0 + 10 * 60 * 1000 ∧ (0 : ℕ) + 10 * 60 * 1000 < 601000 ∧
    (verifyPasswordResetCode noAccounts
        (sendPasswordResetCode noAccounts Store.empty "a@x.com" (1/2) 0 true).1
        "a@x.com" (toString (genCode (1/2))) 599000).1 = true ∧
      (verifyPasswordResetCode noAccounts
        (sendPasswordResetCode noAccounts Store.empty "a@x.com" (1/2) 0 true).1
        "a@x.com" (toString (genCode (1/2))) 601000).1 = false :=
  ⟨by omega, by omega,
    (validate_expiry_boundary noAccounts noAccounts Store.empty "a@x.com" (1/2) 0 true).2.1
      599000 (by omega),
    (validate_expiry_boundary noAccounts noAccounts Store.empty "a@x.com" (1/2) 0 true).2.2
      601000 (by omega)⟩

/-- C3 counterexample: when the second issuance draws the same random value
as the first, the second code equals the first, and after re-issuance the
first code still validates as true well before either expiry — issuing
twice does not invalidate the first code for every generator outcome. -/
theorem reissue_repeated_code_still_valid :
    (verifyPasswordResetCode noAccounts
      (sendPasswordResetCode noAccounts
        (sendPasswordResetCode noAccounts Store.empty "a@x.com" (1/2) 0 true).1
        "a@x.com" (1/2) 1000 true).1
      "a@x.com" (toString (genCode (1/2))) 2000).1 = true := by
  have hst : (sendPasswordResetCode noAccounts
      (sendPasswordResetCode noAccounts Store.empty "a@x.com" (1/2) 0 true).1
      "a@x.com" (1/2) 1000 true).1 "a@x.com"
      = some ⟨toString (genCode (1/2)), 1000 + 10 * 60 * 1000⟩ := by
    show Store.set (sendPasswordResetCode noAccounts Store.empty "a@x.com" (1/2) 0 true).1
        "a@x.com" ⟨toString (genCode (1/2)), 1000 + 10 * 60 * 1000⟩ "a@x.com"
      = some ⟨toString (genCode (1/2)), 1000 + 10 * 60 * 1000⟩
    rw [Store.set_same]
  rw [verify_hit noAccounts _ "a@x.com" _ 2000 _ hst
    (by show ¬ (2000 : ℕ) > 1000 + 10 * 60 * 1000; omega) rfl]

/-- C3 amended: a second issuance overwrites the stored entry with the new
code and expiry, so the first entry is superseded; whenever the second
generated code differs from the first (which the generator does not
guarantee), the first code validates as false at every later time, even
before its original expiry. -/
theorem reissue_supersedes (d d2 d3 : Delegate) (st : Store) (email : String)
    (rand1 rand2 : ℚ) (now1 now2 : ℕ) (ok1 ok2 : Bool) :
    (sendPasswordResetCode d2 (sendPasswordResetCode d st email rand1 now1 ok1).1
        email rand2 now2 ok2).1 email
        = some ⟨toString (genCode rand2), now2 + 10 * 60 * 1000⟩ ∧
      (toString (genCode rand1) ≠ toString (genCode rand2) →
        ∀ now3, (verifyPasswordResetCode d3
          (sendPasswordResetCode d2 (sendPasswordResetCode d st email rand1 now1 ok1).1
            email rand2 now2 ok2).1
          email (toString (genCode rand1)) now3).1 = false) := by
  have hst : (sendPasswordResetCode d2 (sendPasswordResetCode d st email rand1 now1 ok1).1
      email rand2 now2 ok2).1 email
      = some ⟨toString (genCode rand2), now2 + 10 * 60 * 1000⟩ := by
    cases ok2 <;> exact Store.set_same _ _ _
  refine ⟨hst, ?_⟩
  intro hne now3
  by_cases hexp : now3 > now2 + 10 * 60 * 1000
  · rw [verify_expired d3 _ email _ now3 _ hst
      (by show now3 > now2 + 10 * 60 * 1000; omega)]
  · rw [verify_live d3 _ email _ now3 _ hst
      (by show ¬ now3 > now2 + 10 * 60 * 1000; omega)]
    show (toString (genCode rand2) == toString (genCode rand1)) = false
    exact beq_eq_false_iff_ne.mpr (Ne.symm hne)

theorem reissue_supersedes_witness :
    toString (genCode (1/2)) ≠ toString (genCode (1/3)) ∧
      (verifyPasswordResetCode noAccounts
        (sendPasswordResetCode noAccounts
          (sendPasswordResetCode noAccounts Store.empty "a@x.com" (1/2) 0 true).1
          "a@x.com" (1/3) 1000 true).1
        "a@x.com" (toString (genCode (1/2))) 2000).1 = false :=
  ⟨by
      have h1 : genCode (1/2) = 550000 := by unfold genCode; norm_num; rfl
      have h2 : genCode (1/3) = 400000 := by unfold genCode; norm_num; rfl
      rw [h1, h2]; decide,
    (reissue_supersedes noAccounts noAccounts noAccounts Store.empty "a@x.com"
        (1/2) (1/3) 0 1000 true true).2
      (by
        have h1 : genCode (1/2) = 550000 := by unfold genCode; norm_num; rfl
        have h2 : genCode (1/3) = 400000 := by unfold genCode; norm_num; rfl
        rw [h1, h2]; decide)
      2000⟩

/-- C4: `verifyPasswordResetCode` on a live matching entry is non-consuming
and idempotent: however many validations have already run, the store is
still the original one and the next validation returns true with the store
unchanged. -/
theorem validate_idempotent_nonconsuming (d : Delegate) (st : Store)
    (email code : String) (now : ℕ) (e : ResetEntry) (h : st email = some e)
    (hexp : ¬ now > e.expires) (hc : e.code = code) (n : ℕ) :
    verifyPasswordResetCode d
        ((fun s => (verifyPasswordResetCode d s email code now).2)^[n] st)
        email code now = (true, st) := by
  have hv := verify_hit d st email code now e h hexp hc
  have hfix : (fun s => (verifyPasswordResetCode d s email code now).2)^[n] st = st :=
    Function.iterate_fixed
      (by show (verifyPasswordResetCode d st email code now).2 = st; rw [hv]) n
  rw [hfix, hv]

theorem validate_idempotent_nonconsuming_witness :
    (Store.set Store.empty "a@x.com" ⟨"483920", 600000⟩) "a@x.com"
        = some ⟨"483920", 600000⟩ ∧
      verifyPasswordResetCode noAccounts
        ((fun s => (verifyPasswordResetCode noAccounts s "a@x.com" "483920" 1000).2)^[3]
          (Store.set Store.empty "a@x.com" ⟨"483920", 600000⟩))
        "a@x.com" "483920" 1000
        = (true, Store.set Store.empty "a@x.com" ⟨"483920", 600000⟩) :=
  ⟨Store.set_same _ _ _,
    validate_idempotent_nonconsuming noAccounts _ "a@x.com" "483920" 1000
      ⟨"483920", 600000⟩ (Store.set_same _ _ _) (by decide) rfl 3⟩

/-- C5: when the identity platform rejects the new password,
`resetPassword` throws the update failure and the store is left exactly as
it was — the entry survives — and a retried `resetPassword` with the same
code and an accepted password before expiry succeeds. -/
theorem resetPassword_retry_after_rejection (d d2 : Delegate) (st : Store)
    (email code bad good uid uid2 : String) (now now2 : ℕ) (e : ResetEntry)
    (h : st email = some e) (hexp : ¬ now > e.expires) (hc : e.code = code)
    (hu : d.getUserByEmail email = some uid)
    (hup : d.updatePasswordOk uid bad = false)
    (hexp2 : ¬ now2 > e.expires)
    (hu2 : d2.getUserByEmail email = some uid2)
    (hup2 : d2.updatePasswordOk uid2 good = true) :
    resetPassword d st email code bad now = (st, Except.error ResetErr.updateFailed) ∧
      (resetPassword d2 (resetPassword d st email code bad now).1
        email code good now2).2 = Except.ok () := by
  have hv := verify_hit d st email code now e h hexp hc
  have h1 : resetPassword d st email code bad now
      = (st, Except.error ResetErr.updateFailed) := by
    simp [resetPassword, hv, hu, hup]
  refine ⟨h1, ?_⟩
  rw [h1]
  have hv2 := verify_hit d2 st email code now2 e h hexp2 hc
  simp [resetPassword, hv2, hu2, hup2]

theorem resetPassword_retry_after_rejection_witness :
    (Store.set Store.empty "a@x.com" ⟨"483920", 600000⟩) "a@x.com"
        = some ⟨"483920", 600000⟩ ∧
      (resetPassword rejectingDelegate (Store.set Store.empty "a@x.com" ⟨"483920", 600000⟩)
          "a@x.com" "483920" "weakpass" 1000
          = (Store.set Store.empty "a@x.com" ⟨"483920", 600000⟩,
              Except.error ResetErr.updateFailed) ∧
        (resetPassword happyDelegate
          (resetPassword rejectingDelegate
            (Store.set Store.empty "a@x.com" ⟨"483920", 600000⟩)
            "a@x.com" "483920" "weakpass" 1000).1
          "a@x.com" "483920" "NewPass1!" 2000).2 = Except.ok ()) :=
  ⟨Store.set_same _ _ _,
    resetPassword_retry_after_rejection rejectingDelegate happyDelegate _
      "a@x.com" "483920" "weakpass" "NewPass1!" "uid-1" "uid-1" 1000 2000
      ⟨"483920", 600000⟩ (Store.set_same _ _ _) (by decide) rfl rfl rfl
      (by decide) rfl rfl⟩

/-- C8: when email delivery fails, `sendPasswordResetCode` throws the
delivery error, yet the generated entry was already stored, so the code
still validates as true at any time up to the expiry. -/
theorem delivery_failure_keeps_code_valid (d d2 : Delegate) (st : Store)
    (email : String) (rand : ℚ) (now : ℕ) :
    (sendPasswordResetCode d st email rand now false).2
        = Except.error SendErr.deliveryFailed ∧
      (sendPasswordResetCode d st email rand now false).1 email
        = some ⟨toString (genCode rand), now + 10 * 60 * 1000⟩ ∧
      ∀ now2, ¬ now2 > now + 10 * 60 * 1000 →
        (verifyPasswordResetCode d2 (sendPasswordResetCode d st email rand now false).1
          email (toString (genCode rand)) now2).1 = true := by
  have hst : (sendPasswordResetCode d st email rand now false).1 email
      = some ⟨toString (genCode rand), now + 10 * 60 * 1000⟩ :=
    Store.set_same _ _ _
  refine ⟨rfl, hst, ?_⟩
  intro now2 h2
  rw [verify_hit d2 _ email _ now2 _ hst
    (by show ¬ now2 > now + 10 * 60 * 1000; exact h2) rfl]

theorem delivery_failure_keeps_code_valid_witness :
    ¬ (1000 : ℕ) > 0 + 10 * 60 * 1000 ∧
      ((sendPasswordResetCode noAccounts Store.empty "a@x.com" (1/2) 0 false).2
          = Except.error SendErr.deliveryFailed ∧
        (sendPasswordResetCode noAccounts Store.empty "a@x.com" (1/2) 0 false).1 "a@x.com"
          = some ⟨toString (genCode (1/2)), 0 + 10 * 60 * 1000⟩ ∧
        (verifyPasswordResetCode noAccounts
          (sendPasswordResetCode noAccounts Store.empty "a@x.com" (1/2) 0 false).1
          "a@x.com" (toString (genCode (1/2))) 1000).1 = true) :=
  ⟨by omega,
    (delivery_failure_keeps_code_valid noAccounts noAccounts Store.empty
        "a@x.com" (1/2) 0).1,
    (delivery_failure_keeps_code_valid noAccounts noAccounts Store.empty
        "a@x.com" (1/2) 0).2.1,
    (delivery_failure_keeps_code_valid noAccounts noAccounts Store.empty
        "a@x.com" (1/2) 0).2.2 1000 (by omega)⟩
